import Mathlib

/-!
Shallow embedding of the warehouse layout repository (Angular front end plus
SQL schema) and proofs about its unit normalization, gap-array maintenance,
workstation-config rebuilding, pallet placement, and search-id addressing.

Numeric values are modelled as rationals; JavaScript object lookups with a
falsy fallback (`table[k] || d`) are modelled as if-chains over the literal
keys of the table, and `v || d` on a number as a test against 0.
-/

/-- JavaScript `v || d` on a number: `0` (and `undefined`, modelled by the
caller passing 0) falls back to the default. -/
def jsOr (v d : ℚ) : ℚ :=
  if v = 0 then d else v

/-- JavaScript `s || d` on a string: the empty string falls back to the default. -/
def jsOrS (s d : String) : String :=
  if s = "" then d else s

/-- JavaScript `toLowerCase()`, written elementwise over the characters so that
it is kernel-computable. -/
def jsToLower (s : String) : String :=
  String.mk (s.data.map Char.toLower)

namespace PalletConfigComponent

/-- Length units offered by the pallet configuration form (part_001, line 22). -/
def lengthUnits : List String := ["cm", "m", "mm", "ft", "in"]

/-- Weight units offered by the pallet configuration form (part_001, line 23). -/
def weightUnits : List String := ["kg", "lbs", "g", "t", "oz"]

/-- Lookup in the `conversions` table of `convertToCm` (part_001, lines 79-88),
with the JavaScript `|| 1` fallback for keys missing from the table. -/
def toCmFactor (unit : String) : ℚ :=
  if unit = "cm" then 1
  else if unit = "m" then 100
  else if unit = "mm" then 1/10
  else if unit = "ft" then 3048/100
  else if unit = "in" then 254/100
  else 1

/-- The component's `convertToCm(value, unit)` (part_001, lines 79-88). -/
def convertToCm (value : ℚ) (unit : String) : ℚ :=
  value * toCmFactor unit

/-- Lookup in the `conversions` table of `convertToKg` (part_001, lines 90-96),
with the JavaScript `|| 1` fallback. -/
def toKgFactor (unit : String) : ℚ :=
  if unit = "kg" then 1
  else if unit = "lbs" then 453592/1000000
  else 1

/-- The component's `convertToKg(value, unit)` (part_001, lines 90-96). -/
def convertToKg (value : ℚ) (unit : String) : ℚ :=
  value * toKgFactor unit

/-- Lookup in the `conversions` table of `convertFromCm` (part_001, lines 98-107),
with the JavaScript `|| 1` fallback. -/
def fromCmFactor (unit : String) : ℚ :=
  if unit = "cm" then 1
  else if unit = "m" then 1/100
  else if unit = "mm" then 10
  else if unit = "ft" then 328084/10000000
  else if unit = "in" then 393701/1000000
  else 1

/-- The component's `convertFromCm(value, unit)` (part_001, lines 98-107). -/
def convertFromCm (value : ℚ) (unit : String) : ℚ :=
  value * fromCmFactor unit

end PalletConfigComponent

namespace VisualizationComponent

/-- The visualization component's `getUnitConversionFactor` (part_003,
lines 139-144): a factor table that also recognizes `yd`, looked up on the
lower-cased unit, with the JavaScript `|| 1` fallback. -/
def getUnitConversionFactor (unit : String) : ℚ :=
  let u := jsToLower unit
  if u = "cm" then 1
  else if u = "m" then 100
  else if u = "mm" then 1/10
  else if u = "ft" then 3048/100
  else if u = "in" then 254/100
  else if u = "yd" then 9144/100
  else 1

end VisualizationComponent

/-- Claim C6 counterexample: the unit `yd` is outside the claim's recognized
length-unit set, yet the visualization's conversion does not return the value
unchanged: it multiplies by the yard factor 91.44. -/
theorem yd_factor_not_identity :
    "yd" ∉ PalletConfigComponent.lengthUnits ∧
    1 * VisualizationComponent.getUnitConversionFactor "yd" ≠ 1 := by
  refine ⟨by decide, ?_⟩
  simp +decide [VisualizationComponent.getUnitConversionFactor, jsToLower]
  norm_num

/-- Claim C6 (amended): for a unit outside the recognized sets — where the
visualization's factor table additionally recognizes `yd` and lowercases its
input — `convertToCm`, `convertToKg` and multiplication by
`getUnitConversionFactor` all return the value unchanged (conversion factor 1),
and, being total functions, never fail. -/
theorem unknown_unit_identity (v : ℚ) (u : String)
    (hL : u ∉ PalletConfigComponent.lengthUnits)
    (hW : u ∉ ["kg", "lbs"])
    (hF : jsToLower u ∉ ["cm", "m", "mm", "ft", "in", "yd"]) :
    PalletConfigComponent.convertToCm v u = v ∧
    PalletConfigComponent.convertToKg v u = v ∧
    v * VisualizationComponent.getUnitConversionFactor u = v := by
  simp only [PalletConfigComponent.lengthUnits, List.mem_cons, List.not_mem_nil,
    or_false, not_or] at hL hW hF
  obtain ⟨h1, h2, h3, h4, h5⟩ := hL
  obtain ⟨h6, h7⟩ := hW
  obtain ⟨g1, g2, g3, g4, g5, g6⟩ := hF
  refine ⟨?_, ?_, ?_⟩
  · simp [PalletConfigComponent.convertToCm, PalletConfigComponent.toCmFactor,
      h1, h2, h3, h4, h5]
  · simp [PalletConfigComponent.convertToKg, PalletConfigComponent.toKgFactor,
      h6, h7]
  · simp [VisualizationComponent.getUnitConversionFactor,
      g1, g2, g3, g4, g5, g6]

/-- Claim C6 witness: a concrete unrecognized unit is converted with factor 1
by all three conversion functions. -/
theorem unknown_unit_identity_witness :
    PalletConfigComponent.convertToCm 2 "furlong" = 2 ∧
    PalletConfigComponent.convertToKg 2 "furlong" = 2 ∧
    2 * VisualizationComponent.getUnitConversionFactor "furlong" = 2 :=
  unknown_unit_identity 2 "furlong" (by decide) (by decide) (by decide)

/-- Claim C7 counterexample: converting 1 foot to centimeters and back does not
return exactly 1, because the `ft` factors 30.48 and 0.0328084 are not exact
inverses. -/
theorem ft_round_trip_not_exact :
    PalletConfigComponent.convertFromCm
      (PalletConfigComponent.convertToCm 1 "ft") "ft" ≠ 1 := by
  simp +decide [PalletConfigComponent.convertToCm, PalletConfigComponent.convertFromCm,
    PalletConfigComponent.toCmFactor, PalletConfigComponent.fromCmFactor]
  norm_num

/-- Claim C7 (amended): the to-cm/from-cm round trip is the identity exactly
for `cm`, `m` and `mm`; for `ft` it scales the value by 1.000000032 and for
`in` by 1.00000054, the products of the rounded conversion constants. -/
theorem length_round_trip (v : ℚ) :
    PalletConfigComponent.convertFromCm
      (PalletConfigComponent.convertToCm v "cm") "cm" = v ∧
    PalletConfigComponent.convertFromCm
      (PalletConfigComponent.convertToCm v "m") "m" = v ∧
    PalletConfigComponent.convertFromCm
      (PalletConfigComponent.convertToCm v "mm") "mm" = v ∧
    PalletConfigComponent.convertFromCm
      (PalletConfigComponent.convertToCm v "ft") "ft" =
        v * (1000000032 / 1000000000) ∧
    PalletConfigComponent.convertFromCm
      (PalletConfigComponent.convertToCm v "in") "in" =
        v * (100000054 / 100000000) := by
  refine ⟨?_, ?_, ?_, ?_, ?_⟩ <;>
    · simp +decide [PalletConfigComponent.convertToCm, PalletConfigComponent.convertFromCm,
        PalletConfigComponent.toCmFactor, PalletConfigComponent.fromCmFactor]
      try ring_nf
      try norm_num

/-- Claim C10: the units `g`, `t` and `oz` are offered in the weight-unit list,
yet `convertToKg` has no entry for them, so the value is stored numerically
unchanged (factor 1). -/
theorem extra_weight_units_unconverted :
    ("g" ∈ PalletConfigComponent.weightUnits ∧
     "t" ∈ PalletConfigComponent.weightUnits ∧
     "oz" ∈ PalletConfigComponent.weightUnits) ∧
    ∀ v : ℚ,
      PalletConfigComponent.convertToKg v "g" = v ∧
      PalletConfigComponent.convertToKg v "t" = v ∧
      PalletConfigComponent.convertToKg v "oz" = v := by
  refine ⟨by decide, fun v => ?_⟩
  refine ⟨?_, ?_, ?_⟩ <;>
    simp +decide [PalletConfigComponent.convertToKg, PalletConfigComponent.toKgFactor]

namespace WarehouseModels

/-- The `Position` interface of warehouse.models.ts (lines 10-16): `depth` and
`side` are optional fields. -/
structure Position where
  floor : Nat
  row : Nat
  col : Nat
  depth : Option Nat
  side : Option String
deriving Repr, DecidableEq

/-- The `PalletConfig` interface of warehouse.models.ts (lines 18-26). -/
structure PalletConfig where
  type : String
  weight : ℚ
  length_cm : ℚ
  width_cm : ℚ
  height_cm : ℚ
  color : String
  position : Position
deriving Repr, DecidableEq

/-- The `SideAisleConfig` interface of warehouse.models.ts (lines 28-39). -/
structure SideAisleConfig where
  num_floors : Nat
  num_rows : Nat
  num_aisles : Nat
  depth : Nat
  custom_gaps : List ℚ
  gap_front : ℚ
  gap_back : ℚ
  gap_left : ℚ
  gap_right : ℚ
  wall_gap_unit : String
deriving Repr, DecidableEq

/-- The `WorkstationConfig` interface of warehouse.models.ts (lines 41-48). -/
structure WorkstationConfig where
  workstation_index : Nat
  aisle_space : ℚ
  aisle_space_unit : String
  left_side_config : SideAisleConfig
  right_side_config : SideAisleConfig
  pallet_configs : List PalletConfig
deriving Repr, DecidableEq

end WarehouseModels

namespace WarehouseVisualizerComponent

open WarehouseModels

/-- One `value`/`unit` pair of the UI wall-gap objects (`leftWallGaps` /
`rightWallGaps` in the warehouse component). -/
structure WallGap where
  value : ℚ
  unit : String
deriving Repr, DecidableEq

/-- The four wall-gap entries of one side in the UI workstation array. -/
structure WallGaps where
  front : WallGap
  back : WallGap
  left : WallGap
  right : WallGap
deriving Repr, DecidableEq

/-- One entry of the warehouse component's `workstations` array, the UI-side
shape that `updateWorkstationConfigs` reads (part_003, lines 1474-1492). -/
structure UIWorkstation where
  aisle_space : ℚ
  aisle_space_unit : String
  left_side_config : SideAisleConfig
  right_side_config : SideAisleConfig
  leftWallGaps : WallGaps
  rightWallGaps : WallGaps
  pallets : List PalletConfig
deriving Repr, DecidableEq

/-- The warehouse component's `getUnitConversionFactor` (part_003,
lines 1421-1426): no `yd` entry, lower-cased lookup, `|| 1` fallback. -/
def getUnitConversionFactor (unit : String) : ℚ :=
  let u := jsToLower unit
  if u = "cm" then 1
  else if u = "m" then 100
  else if u = "mm" then 1/10
  else if u = "ft" then 3048/100
  else if u = "in" then 254/100
  else 1

/-- The `palletColors` map of the warehouse component (part_003,
lines 1287-1291); a missing key yields the empty string (JavaScript
`undefined`), which the caller defaults. -/
def palletColors (t : String) : String :=
  if t = "wooden" then "#8B4513"
  else if t = "plastic" then "#1E90FF"
  else if t = "metal" then "#A9A9A9"
  else ""

/-- The required gap count of `updateAisleGaps` (part_003, line 1596):
`Math.max(0, (numAisles * depth) - 1)`. -/
def requiredGaps (numAisles depth : Nat) : Nat :=
  max 0 (numAisles * depth - 1)

/-- The warehouse component's `updateAisleGaps` (part_003, lines 1589-1607),
acting on the selected side config: it builds an array of the required length
filled with the default 50, copies the existing values over the shared prefix
(`newGaps[i] = currentGaps[i]` for `i < min` of the lengths), and stores it. -/
def updateAisleGaps (sideConfig : SideAisleConfig) : SideAisleConfig :=
  let required := requiredGaps sideConfig.num_aisles sideConfig.depth
  let currentGaps := sideConfig.custom_gaps
  let newGaps := (List.range required).map (fun i => currentGaps.getD i 50)
  { sideConfig with custom_gaps := newGaps }

/-- The `getGapCm` helper of `updateWorkstationConfigs` (part_003,
lines 1516-1517): `(gaps?.[key]?.value || 0) * factor(gaps?.[key]?.unit || "cm")`. -/
def getGapCm (g : WallGap) : ℚ :=
  jsOr g.value 0 * getUnitConversionFactor (jsOrS g.unit "cm")

/-- The `convertGaps` helper of `updateWorkstationConfigs` (part_003,
lines 1520-1522). -/
def convertGaps (gaps : List ℚ) (unit : String) : List ℚ :=
  gaps.map (fun g => g * getUnitConversionFactor (jsOrS unit "cm"))

/-- The per-side record built inside `updateWorkstationConfigs` (part_003,
lines 1524-1542): spread of the stored side config with wall gaps and custom
gaps converted to cm. -/
def buildSideConfig (cfg : SideAisleConfig) (w : WallGaps) : SideAisleConfig :=
  { cfg with
    gap_front := getGapCm w.front
    gap_back := getGapCm w.back
    gap_left := getGapCm w.left
    gap_right := getGapCm w.right
    custom_gaps := convertGaps cfg.custom_gaps (jsOrS cfg.wall_gap_unit "cm")
    wall_gap_unit := "cm" }

/-- The record built for one workstation at position `index` inside
`updateWorkstationConfigs` (part_003, lines 1509-1555). -/
def buildWorkstationConfig (index : Nat) (workstation : UIWorkstation) :
    WorkstationConfig :=
  { workstation_index := index
    aisle_space := jsOr workstation.aisle_space 200 *
      getUnitConversionFactor (jsOrS workstation.aisle_space_unit "cm")
    aisle_space_unit := "cm"
    left_side_config := buildSideConfig workstation.left_side_config
      workstation.leftWallGaps
    right_side_config := buildSideConfig workstation.right_side_config
      workstation.rightWallGaps
    pallet_configs := workstation.pallets.map (fun pallet =>
      { pallet with color := jsOrS (palletColors pallet.type) "#8B4513" }) }

/-- The warehouse component's `updateWorkstationConfigs` (part_003,
lines 1508-1556): `this.workstations.map((workstation, index) => ...)`. -/
def updateWorkstationConfigs (workstations : List UIWorkstation) :
    List WorkstationConfig :=
  workstations.enum.map (fun p => buildWorkstationConfig p.1 p.2)

end WarehouseVisualizerComponent

namespace WorkstationConfigComponent

open WarehouseModels

/-- One entry of the workstation-config component's `aisleGaps` array
(workstation-config.component.ts, line 33). -/
structure AisleGap where
  value : ℚ
  unit : String
deriving Repr, DecidableEq

/-- The workstation-config component's own `convertToCm`
(workstation-config.component.ts, lines 152-161): the same literal table as
the pallet component's, with the `|| 1` fallback. -/
def convertToCm (value : ℚ) (unit : String) : ℚ :=
  value *
    (if unit = "cm" then 1
     else if unit = "m" then 100
     else if unit = "mm" then (1 : ℚ)/10
     else if unit = "ft" then 3048/100
     else if unit = "in" then 254/100
     else 1)

/-- The component's `initializeAisleGaps`
(workstation-config.component.ts, lines 45-55): it rebuilds the UI `aisleGaps`
array with `num_aisles - 1` entries, each taking the stored gap value
(`custom_gaps[i] || 20`, so a missing or zero entry becomes 20) and the side's
wall-gap unit (`|| 'cm'`). -/
def initializeAisleGaps (aisleConfig : SideAisleConfig) : List AisleGap :=
  (List.range (aisleConfig.num_aisles - 1)).map (fun i =>
    { value := jsOr (aisleConfig.custom_gaps.getD i 0) 20
      unit := jsOrS aisleConfig.wall_gap_unit "cm" })

/-- The assignment performed by `onAisleConfigChange`
(workstation-config.component.ts, lines 57-68): the side config's
`custom_gaps` are rewritten from the UI `aisleGaps` array, each converted
to cm. -/
def onAisleConfigChange (aisleGaps : List AisleGap)
    (aisleConfig : SideAisleConfig) : SideAisleConfig :=
  { aisleConfig with
    custom_gaps := aisleGaps.map (fun gap => convertToCm gap.value gap.unit) }

end WorkstationConfigComponent

open WarehouseModels

/-- A side config as the defaults create it (part_003, lines 1460-1472) whose
custom-gap array is shorter than required: 2 aisles at depth 1 need 1 gap, but
the array is empty. -/
def mismatchedSide : SideAisleConfig :=
  { num_floors := 4, num_rows := 4, num_aisles := 2, depth := 1,
    custom_gaps := [], gap_front := 100, gap_back := 100, gap_left := 100,
    gap_right := 100, wall_gap_unit := "cm" }

/-- A side config whose custom-gap array is longer than required: 2 aisles at
depth 1 need 1 gap, but three are stored. -/
def oversizedSide : SideAisleConfig :=
  { mismatchedSide with custom_gaps := [10, 20, 30] }

/-- A side config with depth 2 and a well-formed gap array of the documented
length `num_aisles * depth - 1 = 3`. -/
def deepSide : SideAisleConfig :=
  { mismatchedSide with depth := 2, custom_gaps := [50, 50, 50] }

/-- Claim C3 counterexample: a Side config whose custom-gap array length
differs from the required `max(0, num_aisles*depth - 1)` is not rejected with
an error; `updateAisleGaps` silently pads the short array with the default
50 cm and silently truncates the long one. -/
theorem updateAisleGaps_no_rejection :
    mismatchedSide.custom_gaps.length ≠
      WarehouseVisualizerComponent.requiredGaps mismatchedSide.num_aisles
        mismatchedSide.depth ∧
    (WarehouseVisualizerComponent.updateAisleGaps mismatchedSide).custom_gaps =
      [50] ∧
    oversizedSide.custom_gaps.length ≠
      WarehouseVisualizerComponent.requiredGaps oversizedSide.num_aisles
        oversizedSide.depth ∧
    (WarehouseVisualizerComponent.updateAisleGaps oversizedSide).custom_gaps =
      [10] := by
  refine ⟨by decide, ?_, by decide, ?_⟩ <;> decide

/-- Claim C3 (amended): a Side config whose custom-gap array length differs
from `max(0, num_aisles*depth - 1)` is not rejected: the side-config change
handler silently resizes the array to the required length (truncating or
padding with the 50 cm default) and leaves every other field of the Side
unchanged. -/
theorem updateAisleGaps_resizes (cfg : SideAisleConfig)
    (_h : cfg.custom_gaps.length ≠
      WarehouseVisualizerComponent.requiredGaps cfg.num_aisles cfg.depth) :
    (WarehouseVisualizerComponent.updateAisleGaps cfg).custom_gaps.length =
      WarehouseVisualizerComponent.requiredGaps cfg.num_aisles cfg.depth ∧
    (WarehouseVisualizerComponent.updateAisleGaps cfg).num_floors =
      cfg.num_floors ∧
    (WarehouseVisualizerComponent.updateAisleGaps cfg).num_rows =
      cfg.num_rows ∧
    (WarehouseVisualizerComponent.updateAisleGaps cfg).num_aisles =
      cfg.num_aisles ∧
    (WarehouseVisualizerComponent.updateAisleGaps cfg).depth = cfg.depth := by
  refine ⟨?_, rfl, rfl, rfl, rfl⟩
  simp [WarehouseVisualizerComponent.updateAisleGaps]

/-- Claim C3 witness: the short sample config is resized to the required
length 1. -/
theorem updateAisleGaps_resizes_witness :
    (WarehouseVisualizerComponent.updateAisleGaps mismatchedSide).custom_gaps.length =
      WarehouseVisualizerComponent.requiredGaps mismatchedSide.num_aisles
        mismatchedSide.depth :=
  (updateAisleGaps_resizes mismatchedSide (by decide)).1

/-- Claim C4 counterexample: on a side with `num_aisles = 2` and `depth = 2`
whose gap array has the documented length 3, re-initializing the gaps through
the workstation-config component leaves only `num_aisles - 1 = 1` entry, so
the invariant `len(custom_gaps) = max(0, num_aisles*depth - 1)` is broken by
that rebuild. -/
theorem reinit_breaks_gap_invariant :
    1 ≤ deepSide.num_aisles ∧ 1 ≤ deepSide.depth ∧
    deepSide.custom_gaps.length =
      WarehouseVisualizerComponent.requiredGaps deepSide.num_aisles
        deepSide.depth ∧
    (WorkstationConfigComponent.onAisleConfigChange
        (WorkstationConfigComponent.initializeAisleGaps deepSide)
        deepSide).custom_gaps.length ≠
      WarehouseVisualizerComponent.requiredGaps deepSide.num_aisles
        deepSide.depth := by
  refine ⟨by decide, by decide, by decide, ?_⟩
  simp [WorkstationConfigComponent.onAisleConfigChange,
    WorkstationConfigComponent.initializeAisleGaps, deepSide, mismatchedSide,
    WarehouseVisualizerComponent.requiredGaps]

/-- Claim C4 (amended): the parent component's `updateAisleGaps` establishes
the invariant `len(custom_gaps) = max(0, num_aisles*depth - 1)` for every side
config, but the workstation-config component's gap re-initialization rebuilds
exactly `num_aisles - 1` entries, so after that operation the invariant holds
only when `depth = 1`. -/
theorem gap_rebuild_lengths :
    (∀ cfg : SideAisleConfig,
      (WarehouseVisualizerComponent.updateAisleGaps cfg).custom_gaps.length =
        WarehouseVisualizerComponent.requiredGaps cfg.num_aisles cfg.depth) ∧
    (∀ cfg : SideAisleConfig,
      (WorkstationConfigComponent.onAisleConfigChange
          (WorkstationConfigComponent.initializeAisleGaps cfg)
          cfg).custom_gaps.length = cfg.num_aisles - 1) := by
  constructor <;> intro cfg
  · simp [WarehouseVisualizerComponent.updateAisleGaps]
  · simp [WorkstationConfigComponent.onAisleConfigChange,
      WorkstationConfigComponent.initializeAisleGaps]

/-- Claim C9: resizing a side's custom-gap array preserves every stored value
whose index survives and fills every newly created position with the default
50 cm. -/
theorem updateAisleGaps_preserves_and_fills (cfg : SideAisleConfig) (i : Nat)
    (h : i < WarehouseVisualizerComponent.requiredGaps cfg.num_aisles cfg.depth) :
    (i < cfg.custom_gaps.length →
      (WarehouseVisualizerComponent.updateAisleGaps cfg).custom_gaps.getD i 0 =
        cfg.custom_gaps.getD i 0) ∧
    (cfg.custom_gaps.length ≤ i →
      (WarehouseVisualizerComponent.updateAisleGaps cfg).custom_gaps.getD i 0 =
        50) := by
  have hlen : (WarehouseVisualizerComponent.updateAisleGaps cfg).custom_gaps.length =
      WarehouseVisualizerComponent.requiredGaps cfg.num_aisles cfg.depth := by
    simp [WarehouseVisualizerComponent.updateAisleGaps]
  constructor <;> intro hi
  · rw [List.getD_eq_getElem _ _ (hlen ▸ h)]
    simp [WarehouseVisualizerComponent.updateAisleGaps, h, List.getD,
      List.getElem?_eq_getElem hi]
  · rw [List.getD_eq_getElem _ _ (hlen ▸ h)]
    simp [WarehouseVisualizerComponent.updateAisleGaps, h, List.getD,
      List.getElem?_eq_none hi]

/-- Claim C9 witness: on the short sample config the one required position is
newly created and receives the default 50. -/
theorem updateAisleGaps_preserves_and_fills_witness :
    (0 < mismatchedSide.custom_gaps.length →
      (WarehouseVisualizerComponent.updateAisleGaps mismatchedSide).custom_gaps.getD 0 0 =
        mismatchedSide.custom_gaps.getD 0 0) ∧
    (mismatchedSide.custom_gaps.length ≤ 0 →
      (WarehouseVisualizerComponent.updateAisleGaps mismatchedSide).custom_gaps.getD 0 0 =
        50) :=
  updateAisleGaps_preserves_and_fills mismatchedSide 0 (by decide)

/-- Claim C8: rebuilding the workstation configuration list indexes the
configs by their list position, so the `workstation_index` values are exactly
`0, 1, ..., n-1` in order — contiguous from 0 and pairwise distinct. -/
theorem updateWorkstationConfigs_indices
    (workstations : List WarehouseVisualizerComponent.UIWorkstation) :
    (WarehouseVisualizerComponent.updateWorkstationConfigs workstations).map
        (fun c => c.workstation_index) = List.range workstations.length ∧
    ((WarehouseVisualizerComponent.updateWorkstationConfigs workstations).map
        (fun c => c.workstation_index)).Nodup := by
  have h : (WarehouseVisualizerComponent.updateWorkstationConfigs workstations).map
      (fun c => c.workstation_index) = List.range workstations.length := by
    unfold WarehouseVisualizerComponent.updateWorkstationConfigs
    rw [List.map_map]
    have hp : ((fun c : WorkstationConfig => c.workstation_index) ∘
        fun p : Nat × WarehouseVisualizerComponent.UIWorkstation =>
          WarehouseVisualizerComponent.buildWorkstationConfig p.1 p.2) =
        Prod.fst := by
      funext p
      rfl
    rw [hp, List.enum_map_fst]
  exact ⟨h, h ▸ List.nodup_range _⟩

namespace VisualizationComponent

/-- An XYZ triple in the Z-up scene coordinates of the visualization. -/
structure Vec3 where
  x : ℚ
  y : ℚ
  z : ℚ
deriving Repr, DecidableEq

/-- The `dims` record of `PalletData` (warehouse.models.ts, lines 61-65). -/
structure PalletDims where
  length : ℚ
  width : ℚ
  height : ℚ
deriving Repr, DecidableEq

/-- The fields of `PalletData` (warehouse.models.ts, lines 67-71) that
`drawPallet` reads; `dims` may be absent (`pallet.dims?`). -/
structure PalletData where
  type : String
  color : String
  dims : Option PalletDims
deriving Repr, DecidableEq

/-- The box size and center position (relative to the aisle group's center)
computed by `drawPallet` (part_003, lines 849-880): `pw`, `pl`, `ph` fall back
to fractions of the aisle when `dims` is missing (or a field is 0, the falsy
default), the geometry clips each axis at 90 percent of the aisle's width and
length and 80 percent of its height, and the mesh is placed at x = 0, y = 0,
z = -aisleHeight/2 + ph/2 + 5. -/
def drawPallet (pallet : PalletData)
    (aisleWidth aisleLength aisleHeight : ℚ) : Vec3 × Vec3 :=
  let pw := match pallet.dims with
    | some d => jsOr d.width (aisleWidth * (8/10))
    | none => aisleWidth * (8/10)
  let pl := match pallet.dims with
    | some d => jsOr d.length (aisleLength * (8/10))
    | none => aisleLength * (8/10)
  let ph := match pallet.dims with
    | some d => jsOr d.height (aisleHeight * (6/10))
    | none => aisleHeight * (6/10)
  (⟨min pw (aisleWidth * (9/10)),
    min pl (aisleLength * (9/10)),
    min ph (aisleHeight * (8/10))⟩,
   ⟨0, 0, -aisleHeight/2 + ph/2 + 5⟩)

/-- The height of the placed box's base above the aisle's floor: the box
center sits at `(drawPallet ...).2.z` relative to the aisle center, the box
extends half its clipped height below that, and the aisle floor lies at
`-aisleHeight/2`. -/
def palletBaseAboveFloor (pallet : PalletData)
    (aisleWidth aisleLength aisleHeight : ℚ) : ℚ :=
  let r := drawPallet pallet aisleWidth aisleLength aisleHeight
  (r.2.z - r.1.z / 2) - (-aisleHeight / 2)

end VisualizationComponent

/-- A sample pallet (120 x 100 x 15 cm, the wooden default) for evaluating the
placement. -/
def samplePalletData : VisualizationComponent.PalletData :=
  { type := "wooden", color := "#8B4513",
    dims := some { length := 120, width := 100, height := 15 } }

/-- Claim C5 counterexample: in a 200 x 200 x 100 cell the sample pallet's
base sits 5 units above the cell floor, not exactly on it. -/
theorem pallet_base_not_on_floor :
    VisualizationComponent.palletBaseAboveFloor samplePalletData 200 200 100 = 5 ∧
    (5 : ℚ) ≠ 0 := by
  constructor
  · simp [VisualizationComponent.palletBaseAboveFloor,
      VisualizationComponent.drawPallet, samplePalletData, jsOr]
    norm_num
  · norm_num

/-- Claim C5 (amended): a pallet with given nonzero dimensions is centered on
the cell's horizontal plane (x = y = 0 relative to the cell center); each box
dimension is the minimum of the configured dimension and a structural fraction
of the cell (90 percent of width and length, 80 percent of height), so an
oversized pallet is shrunk to fit and never rejected; but the base does not
sit exactly on the cell floor: it sits 5 units above it, plus half of any
height clipped away. -/
theorem drawPallet_placement (d : VisualizationComponent.PalletDims)
    (aw al ah : ℚ) (hw : d.width ≠ 0) (hl : d.length ≠ 0) (hh : d.height ≠ 0) :
    (VisualizationComponent.drawPallet ⟨"wooden", "#8B4513", some d⟩ aw al ah).2.x = 0 ∧
    (VisualizationComponent.drawPallet ⟨"wooden", "#8B4513", some d⟩ aw al ah).2.y = 0 ∧
    (VisualizationComponent.drawPallet ⟨"wooden", "#8B4513", some d⟩ aw al ah).1 =
      ⟨min d.width (aw * (9/10)), min d.length (al * (9/10)),
       min d.height (ah * (8/10))⟩ ∧
    VisualizationComponent.palletBaseAboveFloor ⟨"wooden", "#8B4513", some d⟩ aw al ah =
      (d.height - min d.height (ah * (8/10))) / 2 + 5 := by
  refine ⟨rfl, rfl, ?_, ?_⟩
  · simp [VisualizationComponent.drawPallet, jsOr, hw, hl, hh]
  · simp only [VisualizationComponent.palletBaseAboveFloor,
      VisualizationComponent.drawPallet, jsOr, if_neg hw, if_neg hl, if_neg hh]
    ring

/-- Claim C5 witness: the sample pallet in a 200 x 200 x 100 cell keeps its
configured size (it fits under the clip bounds) and its base sits exactly
5 units above the floor. -/
theorem drawPallet_placement_witness :
    (VisualizationComponent.drawPallet
      ⟨"wooden", "#8B4513", some ⟨120, 100, 15⟩⟩ 200 200 100).2.x = 0 ∧
    (VisualizationComponent.drawPallet
      ⟨"wooden", "#8B4513", some ⟨120, 100, 15⟩⟩ 200 200 100).2.y = 0 ∧
    (VisualizationComponent.drawPallet
      ⟨"wooden", "#8B4513", some ⟨120, 100, 15⟩⟩ 200 200 100).1 =
      ⟨min 100 (200 * (9/10)), min 120 (200 * (9/10)),
       min 15 (100 * (8/10))⟩ ∧
    VisualizationComponent.palletBaseAboveFloor
      ⟨"wooden", "#8B4513", some ⟨120, 100, 15⟩⟩ 200 200 100 =
      ((15 : ℚ) - min 15 (100 * (8/10))) / 2 + 5 :=
  drawPallet_placement ⟨120, 100, 15⟩ 200 200 100 (by norm_num) (by norm_num)
    (by norm_num)

namespace WarehouseSchema

/-- One row of `warehouse_pallet_table` (part_000, lines 54-74), restricted to
the columns the search-id query reads, plus the `pallet_id` primary key
(SERIAL: assigned in insertion order). `workstation_id` is the foreign key
into `workstation_table`. -/
structure PalletRow where
  pallet_id : Nat
  workstation_id : Nat
  type : String
  side : String
  floor_idx : Nat
  row_idx : Nat
  aisle_idx : Nat
  deep_idx : Nat
deriving Repr, DecidableEq

/-- The `PARTITION BY` key of the search-id query (part_000, lines 191-194):
workstation, side, floor, row and aisle. -/
def partKey (p : PalletRow) : Nat × String × Nat × Nat × Nat :=
  (p.workstation_id, p.side, p.floor_idx, p.row_idx, p.aisle_idx)

/-- `ROW_NUMBER() OVER (PARTITION BY ... ORDER BY pallet_id)` for row `p`
within `pallets`: the number of rows of the same partition whose `pallet_id`
is at most `p`'s (their ranks, with distinct ids, enumerate the partition in
id order starting at 1). -/
def rowNumber (pallets : List PalletRow) (p : PalletRow) : Nat :=
  pallets.countP (fun q =>
    decide (partKey q = partKey p ∧ q.pallet_id ≤ p.pallet_id))

/-- The `search_id` string of the query at part_000, lines 185-204:
`CONCAT('WS', workstation_index + 1, '-R', row_idx + 1, '-C', aisle_idx + 1,
'-F', floor_idx + 1, '-P', ROW_NUMBER() ...)`, where `workstation_index` is
obtained by joining `workstation_table` on `workstation_id` (the `wsIndex`
map). -/
def searchId (wsIndex : Nat → Nat) (pallets : List PalletRow)
    (p : PalletRow) : String :=
  "WS" ++ toString (wsIndex p.workstation_id + 1) ++
  "-R" ++ toString (p.row_idx + 1) ++
  "-C" ++ toString (p.aisle_idx + 1) ++
  "-F" ++ toString (p.floor_idx + 1) ++
  "-P" ++ toString (rowNumber pallets p)

/-- The spec's rank, stated in its own words for comparison with the query:
the 1-based position of the pallet at list position `i` among all pallets
sharing its key, in original insertion (list) order — the count of same-key
pallets at positions up to and including `i`. -/
def specRank (pallets : List PalletRow) (i : Fin pallets.length) : Nat :=
  (pallets.take (i.1 + 1)).countP (fun q =>
    decide (partKey q = partKey (pallets.get i)))

/-- The spec's address format, stated in its own words for comparison:
`WS{workstationIndex+1}-R{row+1}-C{column+1}-F{floor+1}-P{rank}` with `rank`
the insertion-order rank `specRank`. -/
def specAddress (wsIndex : Nat → Nat) (pallets : List PalletRow)
    (i : Fin pallets.length) : String :=
  let p := pallets.get i
  "WS" ++ toString (wsIndex p.workstation_id + 1) ++
  "-R" ++ toString (p.row_idx + 1) ++
  "-C" ++ toString (p.aisle_idx + 1) ++
  "-F" ++ toString (p.floor_idx + 1) ++
  "-P" ++ toString (specRank pallets i)

/-- When the list's pallet ids are strictly increasing (SERIAL ids in
insertion order), the query's `ROW_NUMBER` rank of the pallet at position `i`
is exactly the spec's insertion-order rank. -/
theorem rowNumber_eq_specRank (pallets : List PalletRow)
    (hmono : ∀ j k : Fin pallets.length, j.1 < k.1 →
      (pallets.get j).pallet_id < (pallets.get k).pallet_id)
    (i : Fin pallets.length) :
    rowNumber pallets (pallets.get i) = specRank pallets i := by
  unfold rowNumber specRank
  have hsplit : ∀ (P : PalletRow → Bool) (l : List PalletRow) (n : Nat),
      l.countP P = (l.take n).countP P + (l.drop n).countP P := by
    intro P l n
    conv_lhs => rw [← List.take_append_drop n l]
    rw [List.countP_append]
  rw [hsplit _ pallets (i.1 + 1)]
  have hdrop : (pallets.drop (i.1 + 1)).countP (fun q =>
      decide (partKey q = partKey (pallets.get i) ∧
        q.pallet_id ≤ (pallets.get i).pallet_id)) = 0 := by
    rw [List.countP_eq_zero]
    intro q hq
    rw [List.mem_iff_getElem] at hq
    obtain ⟨k, hk, hkq⟩ := hq
    have hlen : i.1 + 1 + k < pallets.length := by
      rw [List.length_drop] at hk
      omega
    have hq' : q = pallets.get ⟨i.1 + 1 + k, hlen⟩ := by
      rw [← hkq]
      simp [List.getElem_drop]
    have hgt : (pallets.get i).pallet_id <
        (pallets.get ⟨i.1 + 1 + k, hlen⟩).pallet_id :=
      hmono i ⟨i.1 + 1 + k, hlen⟩ (by show i.1 < i.1 + 1 + k; omega)
    simp only [hq', decide_eq_true_eq, not_and, not_le]
    intro _
    exact hgt
  have htake : (pallets.take (i.1 + 1)).countP (fun q =>
      decide (partKey q = partKey (pallets.get i) ∧
        q.pallet_id ≤ (pallets.get i).pallet_id)) =
      (pallets.take (i.1 + 1)).countP (fun q =>
        decide (partKey q = partKey (pallets.get i))) := by
    apply List.countP_congr
    intro q hq
    rw [List.mem_iff_getElem] at hq
    obtain ⟨k, hk, hkq⟩ := hq
    have hk2 : k < pallets.length ∧ k ≤ i.1 := by
      rw [List.length_take] at hk
      omega
    have hq' : q = pallets.get ⟨k, hk2.1⟩ := by
      rw [← hkq]
      simp [List.getElem_take]
    have hle : (pallets.get ⟨k, hk2.1⟩).pallet_id ≤
        (pallets.get i).pallet_id := by
      rcases Nat.lt_or_ge k i.1 with hlt | hge
      · exact le_of_lt (hmono ⟨k, hk2.1⟩ i hlt)
      · have hik : (⟨k, hk2.1⟩ : Fin pallets.length) = i :=
          Fin.ext (by show k = i.1; omega)
        rw [hik]
    simp only [hq', decide_eq_true_eq]
    exact and_iff_left hle
  rw [hdrop, htake]
  omega

end WarehouseSchema

open WarehouseSchema

/-- The join of `workstation_table` for the sample warehouse (part_000,
lines 85-87): SERIAL `workstation_id` 1 and 2 carry `workstation_index` 0
and 1. -/
def sampleWsIndex : Nat → Nat :=
  fun workstation_id => workstation_id - 1

/-- The ten sample pallets inserted by part_000 (lines 127-165), with their
SERIAL ids 1..10 in insertion order. -/
def samplePallets : List PalletRow :=
  [⟨1, 1, "Wooden", "left", 0, 0, 0, 0⟩,
   ⟨2, 1, "Plastic", "left", 1, 0, 0, 0⟩,
   ⟨3, 1, "Metal", "left", 2, 0, 0, 0⟩,
   ⟨4, 1, "Wooden", "left", 0, 1, 1, 0⟩,
   ⟨5, 1, "Plastic", "right", 0, 0, 0, 0⟩,
   ⟨6, 1, "Metal", "right", 3, 3, 0, 1⟩,
   ⟨7, 2, "Wooden", "left", 0, 4, 0, 0⟩,
   ⟨8, 2, "Plastic", "left", 1, 2, 1, 0⟩,
   ⟨9, 2, "Metal", "right", 2, 4, 0, 1⟩,
   ⟨10, 2, "Wooden", "right", 1, 3, 0, 0⟩]

/-- Claim C1: two distinct sample pallets — pallet 1 on the left side and
pallet 5 on the right side of workstation 1, both at floor 0, row 0,
column 0 — receive the same generated address `WS1-R1-C1-F1-P1`: the rank is
computed per (workstation, side, floor, row, column) partition, but the
address string omits the side, so the two partitions collide. -/
theorem searchId_sample_sides_collide :
    samplePallets.get ⟨0, by decide⟩ ≠ samplePallets.get ⟨4, by decide⟩ ∧
    (samplePallets.get ⟨0, by decide⟩).side = "left" ∧
    (samplePallets.get ⟨4, by decide⟩).side = "right" ∧
    searchId sampleWsIndex samplePallets (samplePallets.get ⟨0, by decide⟩) =
      "WS1-R1-C1-F1-P1" ∧
    searchId sampleWsIndex samplePallets (samplePallets.get ⟨4, by decide⟩) =
      "WS1-R1-C1-F1-P1" := by
  refine ⟨by decide, rfl, rfl, ?_, ?_⟩ <;> rfl

/-- Claim C2: for pallet ids in insertion order, the generated `search_id`
of the pallet at list position `i` is exactly the spec's
`WS{ws+1}-R{row+1}-C{col+1}-F{floor+1}-P{rank}` with `rank` its 1-based
insertion-order position among the pallets sharing its
(workstation, side, floor, row, column) key. -/
theorem searchId_matches_insertion_rank (wsIndex : Nat → Nat)
    (pallets : List PalletRow)
    (hmono : ∀ j k : Fin pallets.length, j.1 < k.1 →
      (pallets.get j).pallet_id < (pallets.get k).pallet_id)
    (i : Fin pallets.length) :
    searchId wsIndex pallets (pallets.get i) = specAddress wsIndex pallets i := by
  unfold searchId specAddress
  rw [rowNumber_eq_specRank pallets hmono i]

/-- Two sample pallets stacked in the same cell of workstation 1, left side,
floor 0, row 0, column 0, ids in insertion order. -/
def stackedPallets : List PalletRow :=
  [⟨1, 1, "Wooden", "left", 0, 0, 0, 0⟩,
   ⟨2, 1, "Plastic", "left", 0, 0, 0, 0⟩]

/-- Claim C2 witness: for the second of two stacked pallets the generated id
equals the spec address (both carry rank 2). -/
theorem searchId_matches_insertion_rank_witness :
    searchId sampleWsIndex stackedPallets (stackedPallets.get ⟨1, by decide⟩) =
      specAddress sampleWsIndex stackedPallets ⟨1, by decide⟩ :=
  searchId_matches_insertion_rank sampleWsIndex stackedPallets (by decide)
    ⟨1, by decide⟩
